import Mathlib

/-!
Shallow embedding of the tbench-runner run-orchestration core
(src/backend/app/tasks.py, src/backend/app/main.py,
src/backend/app/harbor_runner.py, src/backend/app/models.py).

Database rows are modelled as plain records; datetime columns are modelled
by a Bool recording whether the column is set; Celery side effects
(re-enqueue, exception propagation) are modelled by an explicit exit value.
-/

namespace TB

/-- Run status enum, from models.py `RunStatus`. -/
inductive RunStatus
  | pending
  | running
  | passed
  | failed
  | error
  | timeout
deriving DecidableEq, Repr

/-- Task status enum, from models.py `TaskStatus`. -/
inductive TaskStatus
  | pending
  | running
  | completed
  | failed
  | cancelled
deriving DecidableEq, Repr

/-- The string `.value` of a RunStatus member, from models.py. -/
def runStatusStr : RunStatus → String
  | RunStatus.pending => "pending"
  | RunStatus.running => "running"
  | RunStatus.passed => "passed"
  | RunStatus.failed => "failed"
  | RunStatus.error => "error"
  | RunStatus.timeout => "timeout"

/-- The string `.value` of a TaskStatus member, from models.py. -/
def taskStatusStr : TaskStatus → String
  | TaskStatus.pending => "pending"
  | TaskStatus.running => "running"
  | TaskStatus.completed => "completed"
  | TaskStatus.failed => "failed"
  | TaskStatus.cancelled => "cancelled"

/-- A row of the `runs` table (models.py `Run`), restricted to the columns the
orchestration core reads or writes.  `started_at`/`completed_at` record only
whether the datetime column is set. -/
structure Run where
  run_number : Nat
  status : RunStatus
  started_at : Bool
  completed_at : Bool
  tests_total : Nat
  tests_passed : Nat
  tests_failed : Nat
  logs : Option String
  error_message : Option String
deriving DecidableEq, Repr

/-- A row of the `tasks` table (models.py `Task`), restricted to the columns the
orchestration core reads or writes. -/
structure Task where
  num_runs : Nat
  status : TaskStatus
  started_at : Bool
  completed_at : Bool
  total_runs : Nat
  passed_runs : Nat
  failed_runs : Nat
deriving DecidableEq, Repr

/-- Character-list version of "pat occurs at the head of s". -/
def headMatch : List Char → List Char → Bool
  | [], _ => true
  | _ :: _, [] => false
  | a :: as, b :: bs => a == b && headMatch as bs

/-- Character-list version of "pat occurs somewhere in s". -/
def hasSub (pat : List Char) : List Char → Bool
  | [] => headMatch pat []
  | b :: bs => headMatch pat (b :: bs) || hasSub pat bs

/-- Python `pat in s` substring test. -/
def strContains (s pat : String) : Bool :=
  hasSub pat.data s.data

/-- Python `s.lower()`. -/
def lowerStr (s : String) : String :=
  String.mk (s.data.map Char.toLower)

/-- Python `s[:n]` (first n characters). -/
def strTake (n : Nat) (s : String) : String :=
  String.mk (s.data.take n)

/-- Python `s[-n:]` (last n characters). -/
def lastChars (n : Nat) (s : String) : String :=
  String.mk (s.data.drop (s.data.length - n))

/-- Task statistics aggregation, from `_update_task_stats` (tasks.py lines
236-254; main.py lines 534-552 is an identical copy).  Reads all runs of the
task, recomputes the rollup counters, and marks the task COMPLETED when at
least `num_runs` runs are in one of the statuses PASSED, FAILED, ERROR.
Note the source's `completed_statuses` and failed list do not mention
`RunStatus.TIMEOUT`. -/
def updateTaskStats (task : Task) (runs : List Run) : Task :=
  let completedRuns := runs.filter
    (fun r => decide (r.status ∈ [RunStatus.passed, RunStatus.failed, RunStatus.error]))
  let passedRuns := runs.filter (fun r => decide (r.status = RunStatus.passed))
  let failedRuns := runs.filter
    (fun r => decide (r.status ∈ [RunStatus.failed, RunStatus.error]))
  let task1 : Task :=
    { task with
      total_runs := runs.length
      passed_runs := passedRuns.length
      failed_runs := failedRuns.length }
  if task.num_runs ≤ completedRuns.length then
    { task1 with status := TaskStatus.completed, completed_at := true }
  else
    task1

/-- Transient-error classification over the outcome's log text, from
tasks.py lines 74-79.  Python operator precedence makes the middle line a
conjunction: `A or (B and C) or D`. -/
def isTransientLogs (logs : String) : Bool :=
  strContains logs "No such file or directory" ||
  (strContains logs "/tests/test.sh" && strContains (lowerStr logs) "not found") ||
  strContains logs "cannot set terminal process group"

/-- Structured adapter outcome, the dict returned by
`HarborRunner.run_single` (harbor_runner.py lines 75-186) restricted to the
fields the worker reads.  The reward is modelled as a rational (the source
parses a float from `reward.txt`; only comparisons with zero matter). -/
structure HarborResult where
  success : Bool
  reward : Rat
  tests_total : Nat
  tests_passed : Nat
  tests_failed : Nat
  logs : Option String
  error : Option String
deriving DecidableEq, Repr

/-- The dict built by `run_single` on `subprocess.TimeoutExpired`
(harbor_runner.py lines 159-172). -/
def runSingleTimeout (timeout_seconds : Nat) : HarborResult :=
  { success := false
    reward := 0
    tests_total := 0
    tests_passed := 0
    tests_failed := 0
    logs := some ("Task timed out after " ++ toString timeout_seconds ++ " seconds")
    error := some "Timeout" }

/-- What `_parse_harbor_output` can extract from one trial directory:
contents of `verifier/reward.txt` when present and parseable, the
`(tests, passed, failed)` summary of `verifier/ctrf.json` when present and
parseable, and `verifier/test-stdout.txt` when present. -/
structure TrialParse where
  rewardFile : Option Rat
  ctrf : Option (Nat × Nat × Nat)
  testStdout : Option String
deriving DecidableEq, Repr

/-- Accumulator of `_parse_harbor_output` (harbor_runner.py lines 205-273):
reward, tests_total, tests_passed, tests_failed, test_logs. -/
structure ParseOut where
  reward : Rat
  tests_total : Nat
  tests_passed : Nat
  tests_failed : Nat
  test_logs : String
deriving DecidableEq, Repr

/-- The per-trial-directory loop of `_parse_harbor_output` (harbor_runner.py
lines 223-261), including the early break once `reward > 0 or
tests_total > 0`. -/
def parseLoop : List TrialParse → ParseOut → ParseOut
  | [], st => st
  | d :: ds, st =>
    let st1 : ParseOut :=
      match d.rewardFile with
      | some r => { st with reward := r }
      | none => st
    let st2 : ParseOut :=
      match d.ctrf with
      | some (t, p, f) => { st1 with tests_total := t, tests_passed := p, tests_failed := f }
      | none => st1
    let st3 : ParseOut :=
      match d.testStdout with
      | some s => { st2 with test_logs := lastChars 5000 s }
      | none => st2
    if st3.reward > 0 || st3.tests_total > 0 then st3 else parseLoop ds st3

/-- The initial accumulator of `_parse_harbor_output` (harbor_runner.py lines
211-215). -/
def parseZero : ParseOut :=
  { reward := 0, tests_total := 0, tests_passed := 0, tests_failed := 0, test_logs := "" }

/-- The whole of `_parse_harbor_output` (harbor_runner.py lines 205-273):
run the trial-directory loop from the zero state, then apply the fallback
that assigns `tests_total = 1` and the matching passed/failed count.  The
`reward == 0` fallback fires only when at least one trial directory was
found. -/
def parseHarborOutput (dirs : List TrialParse) : ParseOut :=
  let st := parseLoop dirs parseZero
  if st.tests_total = 0 ∧ st.reward > 0 then
    { st with tests_total := 1, tests_passed := 1 }
  else if st.tests_total = 0 ∧ st.reward = 0 then
    if dirs ≠ [] then { st with tests_total := 1, tests_failed := 1 } else st
  else
    st

/-- The result dict built by `run_single` when the harbor subprocess finished
within the timeout (harbor_runner.py lines 126-157): `success` is `reward > 0`
and `error` is set exactly when the exit code is non-zero. -/
def runSingleCompleted (returncode : Int) (stdout stderr : String)
    (dirs : List TrialParse) : HarborResult :=
  let logs := stdout ++ "\n" ++ stderr
  let p := parseHarborOutput dirs
  let fullLogs :=
    if p.test_logs ≠ "" then logs ++ "\n\n=== TEST OUTPUT ===\n" ++ p.test_logs else logs
  { success := decide (p.reward > 0)
    reward := p.reward
    tests_total := p.tests_total
    tests_passed := p.tests_passed
    tests_failed := p.tests_failed
    logs := some fullLogs
    error := if returncode = 0 then none else some ("Exit code: " ++ toString returncode) }

/-- Retry budget of the worker task, from the `@celery_app.task(max_retries=3)`
decorator on `execute_harbor_run` (tasks.py line 19). -/
def MAX_RETRIES : Nat := 3

/-- Per-task default retry delay, from the `default_retry_delay=10` decorator
argument (tasks.py line 20). -/
def DEFAULT_RETRY_DELAY : Nat := 10

/-- An exception value flowing through the worker's `try`/`except`.  Celery's
`Retry` control-flow exception is a subclass of `Exception`, so it is caught
by the worker's generic `except Exception` handler like any adapter fault. -/
inductive Exc
  | adapter (msg : String)
  | celeryRetry (countdown : Nat)
deriving DecidableEq, Repr

/-- Python `str(e)` for the exceptions the worker can see (Celery renders a
`Retry` as "Retry in <n>s"). -/
def excStr : Exc → String
  | Exc.adapter msg => msg
  | Exc.celeryRetry n => "Retry in " ++ toString n ++ "s"

/-- How one delivery of the `execute_harbor_run` Celery task terminates:
a normal return, a `Retry` propagating to Celery (the run is re-enqueued with
the given countdown), or a non-retry exception propagating (retry budget
exhausted). -/
inductive WorkerExit
  | normal
  | requeue (countdown : Nat)
  | raised (msg : String)
deriving DecidableEq, Repr

/-- Committed database state and exit mode after one delivery of
`execute_harbor_run`: the executed run's row, the task row, whether
`_update_task_stats` was invoked, and how the Celery task terminated. -/
structure WorkerOutcome where
  run : Run
  task : Task
  aggregated : Bool
  exit : WorkerExit
deriving DecidableEq, Repr

/-- The worker's `except Exception` handler (tasks.py lines 115-134): mark the
run ERROR with the exception text, re-aggregate the task, then call
`self.retry(exc=e)`, which re-enqueues with the default 10s delay while
`retries < max_retries` and otherwise re-raises the exception. -/
def workerExcept (task : Task) (otherRuns : List Run) (run : Run)
    (retries : Nat) (e : Exc) : WorkerOutcome :=
  let run1 : Run :=
    { run with
      status := RunStatus.error
      completed_at := true
      error_message := some (excStr e) }
  let task1 := updateTaskStats task (otherRuns ++ [run1])
  if retries < MAX_RETRIES then
    { run := run1, task := task1, aggregated := true, exit := WorkerExit.requeue DEFAULT_RETRY_DELAY }
  else
    { run := run1, task := task1, aggregated := true, exit := WorkerExit.raised (excStr e) }

/-- Python truthiness-guarded log truncation `result["logs"][:50000] if
result["logs"] else None` (tasks.py line 95). -/
def truncLogs : Option String → Option String
  | none => none
  | some s => if s.data = [] then none else some (strTake 50000 s)

/-- One delivery of the `execute_harbor_run` Celery task (tasks.py lines
24-137), for a task and run that exist.  `otherRuns` are the task's other run
rows, `retries` is `self.request.retries`, and `adapter` is the outcome of the
`get_file`/`run_task_sync` section of the `try` body: either a raised
exception message or the adapter result dict.  The run is unconditionally
marked RUNNING first (lines 48-51, no PENDING guard).  On a transient
unsuccessful result with retry budget left (lines 81-87), the run is reset to
PENDING and `self.retry(countdown=10)` raises a `Retry` — which the generic
`except Exception` handler catches, because `celery.exceptions.Retry` derives
from `Exception`. -/
def executeHarborRun (task : Task) (otherRuns : List Run) (run : Run)
    (retries : Nat) (adapter : Except String HarborResult) : WorkerOutcome :=
  let run1 : Run := { run with status := RunStatus.running, started_at := true }
  match adapter with
  | Except.error msg => workerExcept task otherRuns run1 retries (Exc.adapter msg)
  | Except.ok result =>
    let logs := result.logs.getD ""
    let transient := isTransientLogs logs
    if transient && !result.success && decide (retries < MAX_RETRIES) then
      let run2 : Run := { run1 with status := RunStatus.pending, started_at := false }
      workerExcept task otherRuns run2 retries (Exc.celeryRetry 10)
    else
      let run2 : Run :=
        { run1 with
          status := if result.success then RunStatus.passed else RunStatus.failed
          completed_at := true
          tests_total := result.tests_total
          tests_passed := result.tests_passed
          tests_failed := result.tests_failed
          logs := truncLogs result.logs
          error_message := result.error }
      let task1 := updateTaskStats task (otherRuns ++ [run2])
      { run := run2, task := task1, aggregated := true, exit := WorkerExit.normal }

/-- The status guard and RUNNING transition at the top of the synchronous
`execute_run` endpoint (main.py lines 325-331): a 400 error when the run is
not PENDING, otherwise the run is marked RUNNING with `started_at` set. -/
def executeRunGuard (run : Run) : Except String Run :=
  if ¬(run.status ∈ [RunStatus.pending]) then
    Except.error ("Run is already " ++ runStatusStr run.status)
  else
    Except.ok { run with status := RunStatus.running, started_at := true }

/-- A fresh PENDING run row as created by the orchestration entry points
(main.py `start_task`, `execute_one_run`; tasks.py `execute_all_runs`). -/
def newRun (n : Nat) : Run :=
  { run_number := n
    status := RunStatus.pending
    started_at := false
    completed_at := false
    tests_total := 0
    tests_passed := 0
    tests_failed := 0
    logs := none
    error_message := none }

/-- The `start_task` endpoint (main.py lines 232-269): guarded by
status == PENDING (400 "Task is already ..." otherwise); creates `num_runs`
PENDING runs numbered 1..num_runs, marks the task RUNNING and sets
`total_runs = num_runs`. -/
def startTask (task : Task) : Except String (Task × List Run) :=
  if ¬(task.status = TaskStatus.pending) then
    Except.error ("Task is already " ++ taskStatusStr task.status)
  else
    let runs := (List.range task.num_runs).map (fun i => newRun (i + 1))
    Except.ok
      ({ task with
         status := TaskStatus.running
         started_at := true
         total_runs := task.num_runs }, runs)

/-- The `retry_task` endpoint (main.py lines 272-297): guarded by
status in {COMPLETED, FAILED} (400 otherwise); deletes all runs of the task
and resets status to PENDING with all counters and timestamps cleared.  It
dispatches nothing. -/
def retryTask (task : Task) (_runs : List Run) : Except String (Task × List Run) :=
  if ¬(task.status ∈ [TaskStatus.completed, TaskStatus.failed]) then
    Except.error "Task must be completed or failed to retry"
  else
    Except.ok
      ({ task with
         status := TaskStatus.pending
         started_at := false
         completed_at := false
         total_runs := 0
         passed_runs := 0
         failed_runs := 0 }, ([] : List Run))

/-- The run-creation part of the `execute_one_run` endpoint (main.py lines
401-422): marks a PENDING task RUNNING, appends one new PENDING run numbered
`existing_runs + 1`, and sets `total_runs = existing_runs + 1` regardless of
`num_runs`.  (The endpoint then hands the new run to `execute_run`.) -/
def executeOneRunCreate (task : Task) (runs : List Run) : Task × List Run :=
  let task1 :=
    if task.status = TaskStatus.pending then
      { task with status := TaskStatus.running, started_at := true }
    else
      task
  let task2 := { task1 with total_runs := runs.length + 1 }
  (task2, runs ++ [newRun (runs.length + 1)])

/-- Stagger batch size, from `BATCH_SIZE = 20` (tasks.py line 169). -/
def BATCH_SIZE : Nat := 20

/-- Stagger batch delay, from `BATCH_DELAY_SECONDS = 1` (tasks.py line 170). -/
def BATCH_DELAY_SECONDS : Nat := 1

/-- Enqueue delay of the 0-based run index `i`, from tasks.py lines 209-210:
`batch_number = i // BATCH_SIZE; delay_seconds = batch_number *
BATCH_DELAY_SECONDS`. -/
def staggerDelay (i : Nat) : Nat :=
  (i / BATCH_SIZE) * BATCH_DELAY_SECONDS

/-- Total staggering time reported by `execute_all_runs` for `numRuns` queued
runs, from tasks.py line 222: `((len(run_ids) - 1) // BATCH_SIZE) *
BATCH_DELAY_SECONDS` with Python's floor division on int. -/
def totalStaggerTime (numRuns : Nat) : Int :=
  (Int.fdiv ((numRuns : Int) - 1) (BATCH_SIZE : Int)) * (BATCH_DELAY_SECONDS : Int)

/-- Fixture: a RUNNING task expecting one run. -/
def task1 : Task :=
  { num_runs := 1, status := TaskStatus.running, started_at := true, completed_at := false,
    total_runs := 1, passed_runs := 0, failed_runs := 0 }

/-- Fixture: a RUNNING task expecting three runs. -/
def task3 : Task :=
  { num_runs := 3, status := TaskStatus.running, started_at := true, completed_at := false,
    total_runs := 3, passed_runs := 0, failed_runs := 0 }

/-- Fixture: a PASSED run. -/
def runPassed : Run :=
  { newRun 1 with
    status := RunStatus.passed, started_at := true, completed_at := true,
    tests_total := 1, tests_passed := 1 }

/-- Fixture: a FAILED run. -/
def runFailed : Run :=
  { newRun 2 with
    status := RunStatus.failed, started_at := true, completed_at := true,
    tests_total := 1, tests_failed := 1 }

/-- Fixture: an ERROR run. -/
def runErrored : Run :=
  { newRun 3 with
    status := RunStatus.error, started_at := true, completed_at := true,
    error_message := some "boom" }

/-- Fixture: a TIMEOUT run. -/
def runTimedOut : Run :=
  { newRun 1 with status := RunStatus.timeout, started_at := true, completed_at := true }

/-- Fixture: an adapter outcome whose log text matches the missing-mount
transient signature. -/
def transientFailResult : HarborResult :=
  { success := false, reward := 0, tests_total := 0, tests_passed := 0, tests_failed := 1,
    logs := some "bash: /tests/test.sh: No such file or directory",
    error := some "Exit code: 127" }

/-- Fixture: an ordinary (non-transient) failing adapter outcome. -/
def agentFailResult : HarborResult :=
  { success := false, reward := 0, tests_total := 1, tests_passed := 0, tests_failed := 1,
    logs := some "agent produced no solution", error := some "Exit code: 1" }

/-- Fixture: one trial directory whose `reward.txt` parses to 1 and which has
no `ctrf.json` and no test stdout. -/
def trialRewardOne : TrialParse :=
  { rewardFile := some 1, ctrf := none, testStdout := none }

/-- Helper: counting two pointwise-exclusive filters never exceeds the list
length. -/
theorem length_filter_add_le {α : Type} (p q : α → Bool)
    (h : ∀ a, p a = true → q a = false) (l : List α) :
    (l.filter p).length + (l.filter q).length ≤ l.length := by
  induction l with
  | nil => simp
  | cons a t ih =>
    cases hp : p a with
    | true =>
      have hq := h a hp
      simp [List.filter_cons, hp, hq]
      omega
    | false =>
      cases hq : q a <;> simp [List.filter_cons, hp, hq] <;> omega

/-- Helper: the membership test of `completed_statuses` written as a
disjunction. -/
theorem completedMemBridge :
    (fun r : Run => decide (r.status ∈ [RunStatus.passed, RunStatus.failed, RunStatus.error]))
      = (fun r : Run =>
          decide (r.status = RunStatus.passed ∨ r.status = RunStatus.failed ∨
            r.status = RunStatus.error)) := by
  funext r
  cases r.status <;> rfl

/-- Helper: the membership test of the failed-status list written as a
disjunction. -/
theorem failedMemBridge :
    (fun r : Run => decide (r.status ∈ [RunStatus.failed, RunStatus.error]))
      = (fun r : Run => decide (r.status = RunStatus.failed ∨ r.status = RunStatus.error)) := by
  funext r
  cases r.status <;> rfl

/-- C1 counterexample: with `num_runs = 1` and the single run in status
TIMEOUT, `_update_task_stats` leaves `failed_runs = 0` and does not complete
the task, contrary to the claim that a TIMEOUT run counts toward
`failed_runs` and toward completion. -/
theorem c1_counterexample :
    (updateTaskStats task1 [runTimedOut]).failed_runs = 0 ∧
    (updateTaskStats task1 [runTimedOut]).status ≠ TaskStatus.completed ∧
    (updateTaskStats task1 [runTimedOut]).completed_at = false := by
  decide

/-- C1 (amended): `_update_task_stats` sets `total_runs` to the number of
runs, `passed_runs` to the number of PASSED runs, and `failed_runs` to the
number of runs in {FAILED, ERROR}; it marks the task COMPLETED (setting
`completed_at`) exactly when at least `num_runs` runs are in
{PASSED, FAILED, ERROR}, leaving status and `completed_at` unchanged
otherwise.  A TIMEOUT run counts toward neither `failed_runs` nor
completion. -/
theorem c1_status_aggregator (task : Task) (runs : List Run) :
    (updateTaskStats task runs).total_runs = runs.length ∧
    (updateTaskStats task runs).passed_runs
      = runs.countP (fun r => decide (r.status = RunStatus.passed)) ∧
    (updateTaskStats task runs).failed_runs
      = runs.countP (fun r => decide (r.status = RunStatus.failed ∨ r.status = RunStatus.error)) ∧
    (updateTaskStats task runs).num_runs = task.num_runs ∧
    (task.num_runs ≤ runs.countP (fun r =>
        decide (r.status = RunStatus.passed ∨ r.status = RunStatus.failed ∨
          r.status = RunStatus.error)) →
      (updateTaskStats task runs).status = TaskStatus.completed ∧
      (updateTaskStats task runs).completed_at = true) ∧
    (runs.countP (fun r =>
        decide (r.status = RunStatus.passed ∨ r.status = RunStatus.failed ∨
          r.status = RunStatus.error)) < task.num_runs →
      (updateTaskStats task runs).status = task.status ∧
      (updateTaskStats task runs).completed_at = task.completed_at) := by
  simp only [updateTaskStats, ← completedMemBridge, ← failedMemBridge,
    List.countP_eq_length_filter]
  split
  · next h =>
    exact ⟨rfl, rfl, rfl, rfl, fun _ => ⟨rfl, rfl⟩, fun hlt => absurd h (by omega)⟩
  · next h =>
    exact ⟨rfl, rfl, rfl, rfl, fun hge => absurd hge h, fun _ => ⟨rfl, rfl⟩⟩

/-- C1 witness: the spec's own example — `num_runs = 3` with runs
{PASSED, FAILED, ERROR} completes the task. -/
theorem c1_witness :
    (updateTaskStats task3 [runPassed, runFailed, runErrored]).status = TaskStatus.completed ∧
    (updateTaskStats task3 [runPassed, runFailed, runErrored]).completed_at = true :=
  (c1_status_aggregator task3 [runPassed, runFailed, runErrored]).2.2.2.2.1 (by decide)

/-- C2: the synchronous `execute_run` endpoint rejects a non-PENDING run with
a 400 error, but the queued worker path `execute_harbor_run` has no PENDING
guard: a duplicate delivery for a run already PASSED is re-executed — it is
unconditionally re-marked RUNNING, runs the adapter again, terminates
normally, and here overwrites the PASSED result with FAILED. -/
theorem c2_worker_start_unguarded :
    executeRunGuard runPassed = Except.error "Run is already passed" ∧
    (executeHarborRun task1 [] runPassed 0 (Except.ok agentFailResult)).exit
      = WorkerExit.normal ∧
    (executeHarborRun task1 [] runPassed 0 (Except.ok agentFailResult)).run.status
      = RunStatus.failed :=
  ⟨rfl, rfl, rfl⟩

/-- C3 counterexample: when the adapter raises with the retry budget intact,
the worker's `except Exception` handler writes the terminal status ERROR and
invokes task aggregation before `self.retry(exc=e)` re-enqueues the run,
contrary to the claim that no terminal status is written and aggregation is
not invoked. -/
theorem c3_counterexample :
    (executeHarborRun task1 [] (newRun 1) 0
      (Except.error "FileNotFoundError: Could not get file")).run.status = RunStatus.error ∧
    (executeHarborRun task1 [] (newRun 1) 0
      (Except.error "FileNotFoundError: Could not get file")).run.completed_at = true ∧
    (executeHarborRun task1 [] (newRun 1) 0
      (Except.error "FileNotFoundError: Could not get file")).aggregated = true ∧
    (executeHarborRun task1 [] (newRun 1) 0
      (Except.error "FileNotFoundError: Could not get file")).exit
      = WorkerExit.requeue 10 :=
  ⟨rfl, rfl, rfl, rfl⟩

/-- C3 (amended): when the adapter raises and `retries < max_retries`, the run
is re-enqueued with the fixed 10s backoff, but only after the run is given the
terminal status ERROR (with `completed_at` and the exception text recorded)
and task aggregation is invoked — the run is not left in flight from the
task's perspective. -/
theorem c3_adapter_exception_retry (task : Task) (otherRuns : List Run) (run : Run)
    (retries : Nat) (msg : String) (h : retries < MAX_RETRIES) :
    (executeHarborRun task otherRuns run retries (Except.error msg)).exit
      = WorkerExit.requeue 10 ∧
    (executeHarborRun task otherRuns run retries (Except.error msg)).run.status
      = RunStatus.error ∧
    (executeHarborRun task otherRuns run retries (Except.error msg)).run.completed_at = true ∧
    (executeHarborRun task otherRuns run retries (Except.error msg)).run.error_message
      = some msg ∧
    (executeHarborRun task otherRuns run retries (Except.error msg)).aggregated = true := by
  simp [executeHarborRun, workerExcept, excStr, DEFAULT_RETRY_DELAY, h]

/-- C3 witness: the amended behavior at a concrete adapter fault with
`retries = 0`. -/
theorem c3_witness :
    (0 < MAX_RETRIES) ∧
    ((executeHarborRun task3 [runPassed] (newRun 2) 0 (Except.error "boom")).exit
        = WorkerExit.requeue 10 ∧
      (executeHarborRun task3 [runPassed] (newRun 2) 0 (Except.error "boom")).run.status
        = RunStatus.error ∧
      (executeHarborRun task3 [runPassed] (newRun 2) 0 (Except.error "boom")).run.completed_at
        = true ∧
      (executeHarborRun task3 [runPassed] (newRun 2) 0 (Except.error "boom")).run.error_message
        = some "boom" ∧
      (executeHarborRun task3 [runPassed] (newRun 2) 0 (Except.error "boom")).aggregated
        = true) :=
  ⟨by decide, c3_adapter_exception_retry task3 [runPassed] (newRun 2) 0 "boom" (by decide)⟩

/-- C4 counterexample: a run whose harbor subprocess hits the timeout ends in
status FAILED, not TIMEOUT, contrary to the claim that the terminal status is
TIMEOUT. -/
theorem c4_counterexample :
    (executeHarborRun task1 [] (newRun 1) 0
      (Except.ok (runSingleTimeout 1200))).run.status = RunStatus.failed ∧
    (executeHarborRun task1 [] (newRun 1) 0
      (Except.ok (runSingleTimeout 1200))).run.status ≠ RunStatus.timeout :=
  ⟨rfl, by decide⟩

/-- C4 (amended): a run whose execution hits the default 1200s timeout reaches
the terminal status FAILED — the TIMEOUT status is never assigned — and the
infrastructure timeout is distinguishable from a genuine test failure only via
the run's error message, which is set to "Timeout". -/
theorem c4_timeout_yields_failed (task : Task) (otherRuns : List Run) (run : Run)
    (retries : Nat) :
    (executeHarborRun task otherRuns run retries
      (Except.ok (runSingleTimeout 1200))).run.status = RunStatus.failed ∧
    (executeHarborRun task otherRuns run retries
      (Except.ok (runSingleTimeout 1200))).run.completed_at = true ∧
    (executeHarborRun task otherRuns run retries
      (Except.ok (runSingleTimeout 1200))).run.error_message = some "Timeout" ∧
    (executeHarborRun task otherRuns run retries
      (Except.ok (runSingleTimeout 1200))).exit = WorkerExit.normal := by
  have htr : isTransientLogs ("Task timed out after " ++ toString 1200 ++ " seconds")
      = false := by decide
  simp [executeHarborRun, runSingleTimeout, htr, Option.getD]

/-- C5 counterexample: `execute_one_run` on a task with `num_runs = 1` that
already has one run creates a second run and sets `total_runs = 2 > num_runs`,
violating the claimed invariant `total_runs <= num_runs`. -/
theorem c5_counterexample :
    (executeOneRunCreate task1 [runPassed]).1.total_runs = 2 ∧
    (executeOneRunCreate task1 [runPassed]).1.num_runs = 1 ∧
    ¬((executeOneRunCreate task1 [runPassed]).1.total_runs
        ≤ (executeOneRunCreate task1 [runPassed]).1.num_runs) := by
  decide

/-- C5 (amended): `passed_runs + failed_runs <= total_runs` holds after
aggregation, and `total_runs <= num_runs` holds after aggregation whenever the
task has at most `num_runs` runs; `start_task` creates exactly `num_runs` runs
with `total_runs = num_runs` and counters untouched, and `retry_task` resets
the counters to zero — but `execute_one_run` can push `total_runs` above
`num_runs`, so the invariant does not hold after every operation. -/
theorem c5_counter_invariant :
    (∀ (task : Task) (runs : List Run),
      (updateTaskStats task runs).passed_runs + (updateTaskStats task runs).failed_runs
        ≤ (updateTaskStats task runs).total_runs) ∧
    (∀ (task : Task) (runs : List Run), runs.length ≤ task.num_runs →
      (updateTaskStats task runs).total_runs ≤ (updateTaskStats task runs).num_runs) ∧
    (∀ (task task2 : Task) (runs2 : List Run), startTask task = Except.ok (task2, runs2) →
      runs2.length = task2.num_runs ∧ task2.total_runs = task2.num_runs ∧
      task2.passed_runs = task.passed_runs ∧ task2.failed_runs = task.failed_runs) ∧
    (∀ (task : Task) (runs : List Run) (task2 : Task) (runs2 : List Run),
      retryTask task runs = Except.ok (task2, runs2) →
      task2.passed_runs + task2.failed_runs ≤ task2.total_runs ∧
      task2.total_runs ≤ task2.num_runs) := by
  refine ⟨?_, ?_, ?_, ?_⟩
  · intro task runs
    have hd : ∀ r : Run, (fun r : Run => decide (r.status = RunStatus.passed)) r = true →
        (fun r : Run => decide (r.status ∈ [RunStatus.failed, RunStatus.error])) r = false := by
      intro r hr
      simp only [decide_eq_true_iff] at hr
      simp [hr]
    have hle := length_filter_add_le _ _ hd runs
    simp only [updateTaskStats]
    split <;> simpa using hle
  · intro task runs h
    simp only [updateTaskStats]
    split <;> simpa using h
  · intro task task2 runs2 h
    simp only [startTask] at h
    split at h
    · exact absurd h (by simp)
    · simp only [Except.ok.injEq, Prod.mk.injEq] at h
      obtain ⟨h1, h2⟩ := h
      subst h1
      subst h2
      simp
  · intro task runs task2 runs2 h
    simp only [retryTask] at h
    split at h
    · exact absurd h (by simp)
    · simp only [Except.ok.injEq, Prod.mk.injEq] at h
      obtain ⟨h1, h2⟩ := h
      subst h1
      simp

/-- C5 witness: the aggregation part of the invariant at a concrete task with
three runs. -/
theorem c5_witness :
    (updateTaskStats task3 [runPassed, runFailed, runErrored]).total_runs
      ≤ (updateTaskStats task3 [runPassed, runFailed, runErrored]).num_runs :=
  c5_counter_invariant.2.1 task3 [runPassed, runFailed, runErrored] (by decide)

/-- C6: a transient-signature failure arriving with the retry budget exhausted
(`retries = max_retries = 3`) falls through the retry branch: the run is
finalized with the terminal status FAILED, nothing is re-enqueued, and the
worker returns normally instead of raising. -/
theorem c6_retry_budget_exhausted (task : Task) (otherRuns : List Run) (run : Run)
    (result : HarborResult) (htr : isTransientLogs (result.logs.getD "") = true)
    (hs : result.success = false) :
    (executeHarborRun task otherRuns run MAX_RETRIES (Except.ok result)).run.status
      = RunStatus.failed ∧
    (executeHarborRun task otherRuns run MAX_RETRIES (Except.ok result)).run.completed_at
      = true ∧
    (executeHarborRun task otherRuns run MAX_RETRIES (Except.ok result)).exit
      = WorkerExit.normal := by
  simp [executeHarborRun, htr, hs]

/-- C6 witness: the exhausted-budget behavior at the concrete missing-mount
transient outcome. -/
theorem c6_witness :
    (isTransientLogs (transientFailResult.logs.getD "") = true ∧
      transientFailResult.success = false) ∧
    ((executeHarborRun task1 [] (newRun 1) MAX_RETRIES
        (Except.ok transientFailResult)).run.status = RunStatus.failed ∧
      (executeHarborRun task1 [] (newRun 1) MAX_RETRIES
        (Except.ok transientFailResult)).run.completed_at = true ∧
      (executeHarborRun task1 [] (newRun 1) MAX_RETRIES
        (Except.ok transientFailResult)).exit = WorkerExit.normal) :=
  ⟨⟨by decide, by decide⟩,
    c6_retry_budget_exhausted task1 [] (newRun 1) transientFailResult (by decide) (by decide)⟩

/-- C7: on a transient-signature failure with retry budget left, the worker
does reset the run to PENDING and call `self.retry(countdown=10)` — but the
`Retry` raised by that call is caught by the worker's own
`except Exception` handler, which overwrites the run with the terminal status
ERROR and invokes task aggregation before the re-enqueue, so the committed run
state is ERROR with `completed_at` set, not PENDING. -/
theorem c7_transient_retry_clobbered :
    (executeHarborRun task1 [] (newRun 1) 0 (Except.ok transientFailResult)).exit
      = WorkerExit.requeue 10 ∧
    (executeHarborRun task1 [] (newRun 1) 0 (Except.ok transientFailResult)).run.status
      = RunStatus.error ∧
    (executeHarborRun task1 [] (newRun 1) 0 (Except.ok transientFailResult)).run.status
      ≠ RunStatus.pending ∧
    (executeHarborRun task1 [] (newRun 1) 0 (Except.ok transientFailResult)).run.completed_at
      = true ∧
    (executeHarborRun task1 [] (newRun 1) 0 (Except.ok transientFailResult)).aggregated
      = true :=
  ⟨rfl, rfl, by decide, rfl, rfl⟩

/-- C8: the stagger delay is the deterministic stateless function
`floor(i / batch_size) * batch_delay` of the 0-based run index: indices 0..19
get 0s, index 25 gets 1s, index 45 gets 2s; for `1 <= N` the reported total
staggering time is `floor((N - 1) / batch_size) * batch_delay`; and at most
`batch_size` run indices share any one delay value. -/
theorem c8_stagger_deterministic :
    (∀ i : Nat, staggerDelay i = (i / 20) * 1) ∧
    (∀ i : Nat, i ≤ 19 → staggerDelay i = 0) ∧
    staggerDelay 25 = 1 ∧
    staggerDelay 45 = 2 ∧
    (∀ n : Nat, 1 ≤ n → totalStaggerTime n = ((((n - 1) / 20) * 1 : Nat) : Int)) ∧
    (∀ n d : Nat,
      ((Finset.range n).filter (fun i => staggerDelay i = d)).card ≤ BATCH_SIZE) := by
  refine ⟨fun i => rfl, ?_, rfl, rfl, ?_, ?_⟩
  · intro i h
    simp only [staggerDelay, BATCH_SIZE, BATCH_DELAY_SECONDS]
    omega
  · intro n h
    obtain ⟨m, rfl⟩ : ∃ m, n = m + 1 := ⟨n - 1, by omega⟩
    have hcast : ((m + 1 : Nat) : Int) - 1 = (m : Int) := by push_cast; ring
    have hfd : Int.fdiv (m : Int) (((20 : Nat) : Int)) = ((m / 20 : Nat) : Int) := by
      cases m <;> rfl
    simp only [totalStaggerTime, BATCH_SIZE, BATCH_DELAY_SECONDS, hcast, hfd,
      Nat.add_sub_cancel, Nat.mul_one, Nat.cast_one, mul_one]
  · intro n d
    have hsub : (Finset.range n).filter (fun i => staggerDelay i = d)
        ⊆ Finset.Ico (20 * d) (20 * d + 20) := by
      intro i hi
      simp only [Finset.mem_filter, Finset.mem_range, staggerDelay, BATCH_SIZE,
        BATCH_DELAY_SECONDS] at hi
      simp only [Finset.mem_Ico]
      omega
    calc ((Finset.range n).filter (fun i => staggerDelay i = d)).card
        ≤ (Finset.Ico (20 * d) (20 * d + 20)).card := Finset.card_le_card hsub
      _ = 20 := by rw [Nat.card_Ico]; omega
      _ ≤ BATCH_SIZE := by simp [BATCH_SIZE]

/-- C8 witness: the delay anchors and the reported total for 45 runs. -/
theorem c8_witness :
    staggerDelay 5 = 0 ∧ totalStaggerTime 45 = ((((45 - 1) / 20) * 1 : Nat) : Int) :=
  ⟨c8_stagger_deterministic.2.1 5 (by decide),
    c8_stagger_deterministic.2.2.2.2.1 45 (by decide)⟩

/-- C9: `retry_task` on a COMPLETED or FAILED task deletes every run and
resets the task to PENDING with `total_runs`, `passed_runs` and `failed_runs`
all zero and timestamps cleared, dispatching nothing; on a task in any other
status it fails with the 400 "must be completed or failed" error and changes
nothing. -/
theorem c9_retry_task :
    (∀ (task : Task) (runs : List Run),
      task.status = TaskStatus.completed ∨ task.status = TaskStatus.failed →
      retryTask task runs = Except.ok
        ({ task with
           status := TaskStatus.pending
           started_at := false
           completed_at := false
           total_runs := 0
           passed_runs := 0
           failed_runs := 0 }, ([] : List Run))) ∧
    (∀ (task : Task) (runs : List Run),
      ¬(task.status = TaskStatus.completed ∨ task.status = TaskStatus.failed) →
      retryTask task runs = Except.error "Task must be completed or failed to retry") := by
  constructor
  · intro task runs h
    simp [retryTask, h]
  · intro task runs h
    simp [retryTask, h]

/-- C9 witness: retrying a concrete COMPLETED task resets it, and retrying a
RUNNING task is rejected. -/
theorem c9_witness :
    retryTask
      { num_runs := 3, status := TaskStatus.completed, started_at := true,
        completed_at := true, total_runs := 3, passed_runs := 1, failed_runs := 2 }
      [runPassed, runFailed, runErrored]
      = Except.ok
        ({ num_runs := 3, status := TaskStatus.pending, started_at := false,
           completed_at := false, total_runs := 0, passed_runs := 0, failed_runs := 0 },
          ([] : List Run)) ∧
    retryTask task3 [runPassed] = Except.error "Task must be completed or failed to retry" :=
  ⟨c9_retry_task.1
      { num_runs := 3, status := TaskStatus.completed, started_at := true,
        completed_at := true, total_runs := 3, passed_runs := 1, failed_runs := 2 }
      [runPassed, runFailed, runErrored] (Or.inl rfl),
    c9_retry_task.2 task3 [runPassed] (by decide)⟩

/-- C10 counterexample: a harbor invocation that exits 0 but produced no trial
directories yields `tests_total = 0` — the claimed unconditional fallback to
`tests_total = 1` does not happen — with `success = false` and no error. -/
theorem c10_counterexample :
    (runSingleCompleted 0 "" "" []).tests_total = 0 ∧
    (runSingleCompleted 0 "" "" []).tests_total ≠ 1 ∧
    (runSingleCompleted 0 "" "" []).success = false ∧
    (runSingleCompleted 0 "" "" []).error = none := by
  refine ⟨rfl, by decide, ?_, rfl⟩
  decide

/-- C10 (amended): the adapter result of a completed harbor subprocess reports
`success = true` exactly when the parsed reward is strictly positive, and sets
`error` exactly when the exit code is non-zero (the exit code never determines
`success`); when the parse loop finds no test counts, the result falls back to
`tests_total = 1` — counted as passed when the reward is positive, and as
failed when the reward is zero and at least one trial directory was found —
while with no trial directories and zero reward all counts remain 0. -/
theorem c10_run_single_result :
    (∀ (rc : Int) (out err : String) (dirs : List TrialParse),
      (runSingleCompleted rc out err dirs).success = true ↔
        0 < (runSingleCompleted rc out err dirs).reward) ∧
    (∀ (rc : Int) (out err : String) (dirs : List TrialParse),
      (runSingleCompleted rc out err dirs).error = none ↔ rc = 0) ∧
    (∀ dirs : List TrialParse, (parseLoop dirs parseZero).tests_total = 0 →
      0 < (parseLoop dirs parseZero).reward →
      (parseHarborOutput dirs).tests_total = 1 ∧
      (parseHarborOutput dirs).tests_passed = 1 ∧
      (parseHarborOutput dirs).reward = (parseLoop dirs parseZero).reward) ∧
    (∀ dirs : List TrialParse, (parseLoop dirs parseZero).tests_total = 0 →
      (parseLoop dirs parseZero).reward = 0 → dirs ≠ [] →
      (parseHarborOutput dirs).tests_total = 1 ∧
      (parseHarborOutput dirs).tests_failed = 1) ∧
    parseHarborOutput [] = parseZero := by
  refine ⟨?_, ?_, ?_, ?_, ?_⟩
  · intro rc out err dirs
    simp [runSingleCompleted, decide_eq_true_iff, gt_iff_lt]
  · intro rc out err dirs
    simp only [runSingleCompleted]
    split <;> simp_all
  · intro dirs h0 hr
    simp [parseHarborOutput, h0, hr]
  · intro dirs h0 hr hne
    simp [parseHarborOutput, h0, hr, hne]
  · rfl

/-- C10 witness: a single trial directory with reward 1 and no ctrf summary
triggers the positive-reward fallback. -/
theorem c10_witness :
    ((parseLoop [trialRewardOne] parseZero).tests_total = 0 ∧
      0 < (parseLoop [trialRewardOne] parseZero).reward) ∧
    ((parseHarborOutput [trialRewardOne]).tests_total = 1 ∧
      (parseHarborOutput [trialRewardOne]).tests_passed = 1 ∧
      (parseHarborOutput [trialRewardOne]).reward
        = (parseLoop [trialRewardOne] parseZero).reward) :=
  ⟨⟨by decide, by decide⟩,
    c10_run_single_result.2.2.1 [trialRewardOne] (by decide) (by decide)⟩

end TB
